import Mathlib

/-!
Verification of the nanobot P2P safeguard store (`nanobot/api/p2p_protocol.py`)
and the multi-turn GitHub dialog handler (`nanobot/api/conversation.py`).

The Python state files are embedded as association lists from conversation ids
to records; wall-clock timestamps are embedded as integer seconds; every
function that loads, mutates and saves the JSON store becomes a function from
the store to the new store. Definitions come first, theorems follow.
-/

namespace Nanobot

/-! Generic association-list operations mirroring Python dict access on the
JSON stores (string keys, insertion order preserved). -/

section Assoc

variable {α : Type}

/-- Python `d.get(k)`: the first entry with the given key, if any. -/
def lookupBy : List (String × α) → String → Option α
  | [], _ => none
  | p :: t, k => if p.1 == k then some p.2 else lookupBy t k

/-- Python `d[k] = f(d[k])` for a present key: rewrite the entry in place. -/
def updateBy : List (String × α) → String → (α → α) → List (String × α)
  | [], _, _ => []
  | p :: t, k, f => (if p.1 == k then (p.1, f p.2) else p) :: updateBy t k f

/-- Python `d[k] = v`: replace in place when present, append when absent. -/
def setBy (l : List (String × α)) (k : String) (v : α) : List (String × α) :=
  if (lookupBy l k).isSome then updateBy l k (fun _ => v) else l ++ [(k, v)]

end Assoc

namespace P2P

/-! Embedding of `nanobot/api/p2p_protocol.py`. Timestamps are integer
seconds; the ISO strings of the source carry the same ordering information. -/

def MAX_TURNS_PER_CONVERSATION : Nat := 3

def COOLDOWN_SECONDS : Int := 60

def CONVERSATION_TIMEOUT_MINUTES : Int := 5

/-- One entry of `state["conversations"]` (the `Conversation` dataclass plus
the `source` and `end_reason` keys the functions write into the dict). -/
structure Conversation where
  id : String
  started_at : Int
  turns : Nat := 0
  last_message_at : Option Int := none
  completed : Bool := false
  source : String := ""
  end_reason : Option String := none
  deriving Repr, DecidableEq

/-- The whole JSON state file: conversations by id, plus the global
`last_response_at` stamp (absent on a fresh state). -/
structure P2PState where
  conversations : List (String × Conversation)
  last_response_at : Option Int
  deriving Repr, DecidableEq

/-- Lookup of `state["conversations"].get(conversation_id)`. -/
def findConv (s : P2PState) (cid : String) : Option Conversation :=
  lookupBy s.conversations cid

/-- Final fallthrough of `check_safeguards`: rule 3 of the source, then admit. -/
def ownSourceCheck (source : String) : Bool × String :=
  if source == "nanobot" then (false, "Won't respond to own messages")
  else (true, "OK")

/-- Embedding of `check_safeguards(conversation_id, source)` as a pure
predicate on the loaded state and the current clock value. -/
def check_safeguards (s : P2PState) (now : Int) (conversation_id source : String) :
    Bool × String :=
  let cooldown :=
    match s.last_response_at with
    | some last => decide (now - last < COOLDOWN_SECONDS)
    | none => false
  if cooldown then
    (false, "Cooldown active (60s)")
  else
    match findConv s conversation_id with
    | some conv =>
      if conv.completed then (false, "Conversation already completed")
      else if MAX_TURNS_PER_CONVERSATION ≤ conv.turns then
        (false, "Max turns reached (3)")
      else if CONVERSATION_TIMEOUT_MINUTES * 60 < now - conv.started_at then
        (false, "Conversation timed out")
      else ownSourceCheck source
    | none => ownSourceCheck source

/-- Embedding of `check_safeguards` with the state threaded explicitly: every
return point of the source returns without calling `save_state`, so each
branch yields the loaded state unchanged next to its verdict. -/
def check_safeguardsS (s : P2PState) (now : Int) (conversation_id source : String) :
    P2PState × (Bool × String) :=
  let cooldown :=
    match s.last_response_at with
    | some last => decide (now - last < COOLDOWN_SECONDS)
    | none => false
  if cooldown then
    (s, (false, "Cooldown active (60s)"))
  else
    match findConv s conversation_id with
    | some conv =>
      if conv.completed then (s, (false, "Conversation already completed"))
      else if MAX_TURNS_PER_CONVERSATION ≤ conv.turns then
        (s, (false, "Max turns reached (3)"))
      else if CONVERSATION_TIMEOUT_MINUTES * 60 < now - conv.started_at then
        (s, (false, "Conversation timed out"))
      else (s, ownSourceCheck source)
    | none => (s, ownSourceCheck source)

/-- Rule table written from the claim's words: the five safeguard rules in
their stated order, each with its deny reason (a refinement-side definition,
to be compared with `check_safeguards`). -/
def safeguardRules (s : P2PState) (now : Int) (conversation_id source : String) :
    List (Bool × String) :=
  [ ((match s.last_response_at with
      | some last => decide (now - last < 60)
      | none => false), "Cooldown active (60s)"),
    ((match findConv s conversation_id with
      | some c => c.completed
      | none => false), "Conversation already completed"),
    ((match findConv s conversation_id with
      | some c => decide (3 ≤ c.turns)
      | none => false), "Max turns reached (3)"),
    ((match findConv s conversation_id with
      | some c => decide (5 * 60 < now - c.started_at)
      | none => false), "Conversation timed out"),
    (source == "nanobot", "Won't respond to own messages") ]

/-- First matching rule of a rule table, if any. -/
def firstMatchingRule : List (Bool × String) → Option String
  | [] => none
  | r :: rest => if r.1 then some r.2 else firstMatchingRule rest

/-- Spec-side evaluator: deny with the first matching rule's reason, admit
with reason "OK" when no rule matches. -/
def evaluateSpecOrdered (s : P2PState) (now : Int) (conversation_id source : String) :
    Bool × String :=
  match firstMatchingRule (safeguardRules s now conversation_id source) with
  | some reason => (false, reason)
  | none => (true, "OK")

/-- Embedding of `start_conversation`: create the record when absent. The
source builds the dict entry and returns the state without saving. -/
def start_conversation (s : P2PState) (now : Int) (conversation_id source : String) :
    P2PState :=
  if (findConv s conversation_id).isSome then s
  else
    { s with conversations := s.conversations ++
        [(conversation_id,
          { id := conversation_id, started_at := now, turns := 0,
            last_message_at := some now, completed := false, source := source })] }

/-- Embedding of `record_turn`: bump `turns` and `last_message_at` when the
record exists (and only then), always stamp the global `last_response_at`,
save. -/
def record_turn (s : P2PState) (now : Int) (conversation_id : String) : P2PState :=
  let convs :=
    if (findConv s conversation_id).isSome then
      updateBy s.conversations conversation_id
        (fun c => { c with turns := c.turns + 1, last_message_at := some now })
    else s.conversations
  { conversations := convs, last_response_at := some now }

/-- Embedding of `end_conversation`: mark completed and note the reason when
the record exists, save. -/
def end_conversation (s : P2PState) (conversation_id : String)
    (reason : String) : P2PState :=
  let convs := updateBy s.conversations conversation_id
    (fun c => { c with completed := true, end_reason := some reason })
  { s with conversations := convs }

/-- Embedding of `cleanup_old_conversations`: collect the ids of records whose
`started_at` predates the cutoff, delete them one by one, return the count. -/
def cleanup_old_conversations (s : P2PState) (now : Int) (max_age_hours : Int) :
    P2PState × Nat :=
  let cutoff := now - max_age_hours * 3600
  let to_remove :=
    (s.conversations.filter (fun p => decide (p.2.started_at < cutoff))).map
      (fun p => p.1)
  let convs :=
    to_remove.foldl (fun acc cid => acc.filter (fun p => not (p.1 == cid)))
      s.conversations
  ({ s with conversations := convs }, to_remove.length)

/-- Turn counter of a record, 0 when the record is absent. -/
def turnsOf (s : P2PState) (cid : String) : Nat :=
  match findConv s cid with
  | some c => c.turns
  | none => 0

/-- The state-mutating operations of the protocol module (those that keep
records; `cleanup_old_conversations` deletes records outright). -/
inductive P2POp where
  | recordTurn (now : Int) (cid : String)
  | startConv (now : Int) (cid source : String)
  | endConv (cid reason : String)

/-- Run one operation. -/
def applyOp (s : P2PState) : P2POp → P2PState
  | .recordTurn now cid => record_turn s now cid
  | .startConv now cid source => start_conversation s now cid source
  | .endConv cid reason => end_conversation s cid reason

/-- Run a sequence of operations left to right. -/
def applyOps (s : P2PState) : List P2POp → P2PState
  | [] => s
  | op :: ops => applyOps (applyOp s op) ops

/-- Fixture: a completed record with one recorded turn. -/
def completedState : P2PState :=
  ⟨[("c", { id := "c", started_at := 0, turns := 1, last_message_at := some 0,
            completed := true, source := "argus", end_reason := none })], none⟩

/-- Fixture for the sweep: one record 25 hours old, one 23 hours old
(clock value 0, ages in seconds). -/
def sweepState : P2PState :=
  ⟨[("old", { id := "old", started_at := -90000 }),
    ("new", { id := "new", started_at := -82800 })], none⟩

end P2P

namespace Conv

/-! Embedding of `nanobot/api/conversation.py`: the conversation memory file
and the GitHub issue dialog state machine. External effects (the `gh` CLI and
the Claude call) enter as an environment of functions; message timestamps are
integer seconds. -/

/-- One entry of a conversation's `messages` list. -/
structure Message where
  role : String
  content : String
  timestamp : Int
  deriving Repr, DecidableEq

/-- One GitHub issue as `_get_issues` shapes it. -/
structure Issue where
  number : Nat
  title : String
  author : String
  created : String
  labels : List String
  comments : Nat
  deriving Repr, DecidableEq

/-- The `context` dict of a conversation: the keys the dialog reads and
writes, each optional exactly as dict access with defaults is. -/
structure Context where
  repo : Option String := none
  issues : Option (List Issue) := none
  selected_issue : Option Nat := none
  waiting_for_claude : Bool := false
  deriving Repr, DecidableEq

/-- One conversation record of the memory file. -/
structure Conversation where
  id : String
  topic : String
  messages : List Message := []
  context : Context := {}
  turn : Nat := 0
  status : String := "active"
  created_at : Int := 0
  deriving Repr, DecidableEq

/-- The whole conversation memory file. -/
abbrev Store := List (String × Conversation)

/-- Result of `gh issue view --json title,body,comments` (only `body` is
read by the dialog). -/
structure IssueDetails where
  body : Option String := none
  deriving Repr, DecidableEq

/-- One comment as `_get_issue_comments` shapes it. -/
structure CommentEntry where
  author : String
  body : String
  date : String
  deriving Repr, DecidableEq

/-- The dialog's external world: the fetched issue list, detail and comment
lookups by repo and number, and the Claude call on a prompt. -/
structure Env where
  issues : List Issue
  details : String → Nat → IssueDetails
  comments : String → Nat → List CommentEntry
  claude : String → Bool × String

/-- The dict returned by `handle_github_dialog`. -/
structure DialogResult where
  response : String
  options : List String
  waiting_for : Option String
  done : Bool
  deriving Repr, DecidableEq

/-- Embedding of `get_conversation`. -/
def get_conversation (convs : Store) (cid : String) : Option Conversation :=
  lookupBy convs cid

/-- Embedding of `create_conversation`: build a fresh record and store it. -/
def create_conversation (convs : Store) (now : Int) (cid topic : String)
    (ctx : Context) : Store :=
  setBy convs cid
    { id := cid, topic := topic, messages := [], context := ctx,
      turn := 0, status := "active", created_at := now }

/-- Embedding of `add_message`: append the message and bump `turn` when the
conversation exists; return the store unchanged otherwise. -/
def add_message (convs : Store) (now : Int) (cid role content : String) : Store :=
  if (lookupBy convs cid).isSome then
    updateBy convs cid (fun c =>
      { c with
        messages := c.messages ++ [{ role := role, content := content, timestamp := now }],
        turn := c.turn + 1 })
  else convs

/-- Embedding of `update_context`: rewrite one context key when the
conversation exists. -/
def update_context (convs : Store) (cid : String) (f : Context → Context) : Store :=
  updateBy convs cid (fun c => { c with context := f c.context })

/-- Embedding of `end_conversation` of the conversation module: set the
status to done when the conversation exists. -/
def end_dialog (convs : Store) (cid : String) : Store :=
  updateBy convs cid (fun c => { c with status := "done" })

/-- Python `str.lower` restricted to the ASCII range the dialog tokens use. -/
def strLower (s : String) : String :=
  ⟨s.data.map Char.toLower⟩

/-- Whitespace stripped by `str.strip` (the kinds the dialog can meet). -/
def isStripChar (c : Char) : Bool :=
  c == ' ' || c == '\t' || c == '\n' || c == '\r'

/-- Python `str.strip`. -/
def pyStrip (s : String) : String :=
  ⟨((s.data.dropWhile isStripChar).reverse.dropWhile isStripChar).reverse⟩

/-- Python `needle in haystack` on the underlying character lists. -/
def containsSeq (needle : List Char) : List Char → Bool
  | [] => needle.isEmpty
  | c :: t => needle.isPrefixOf (c :: t) || containsSeq needle t

/-- Python `pat in s` for strings. -/
def strContains (s pat : String) : Bool :=
  containsSeq pat.data s.data

/-- The exit vocabulary of line 161 of the source. -/
def exitTokens : List String :=
  ["done", "fertig", "ende", "nein", "keins", "nichts"]

/-- Whether the lowered, stripped input holds an exit token. -/
def hasExitSignal (lower : String) : Bool :=
  exitTokens.any (fun t => strContains lower t)

/-- Decimal value of a digit run. -/
def digitsVal (cs : List Char) : Nat :=
  cs.foldl (fun acc c => acc * 10 + (c.toNat - '0'.toNat)) 0

/-- First maximal digit run of a character list, as a number. -/
def firstNumber : List Char → Option Nat
  | [] => none
  | c :: t =>
    if c.isDigit then some (digitsVal ((c :: t).takeWhile Char.isDigit))
    else firstNumber t

/-- Embedding of `re.search(r'#?(\d+)', s)` followed by `int(...)`: the first
digit run of the input (the optional `#` never changes group 1). -/
def extractNumber (s : String) : Option Nat :=
  firstNumber s.data

/-- Python truthiness of `context.get("selected_issue")` (absent or `None`
is falsy, and so is the number 0). -/
def truthyNat : Option Nat → Bool
  | none => false
  | some n => n != 0

/-- Python truthiness of `details.get("body")`. -/
def truthyStr : Option String → Bool
  | none => false
  | some s => not s.data.isEmpty

/-- Python interpolation of a possibly missing number (`None` prints). -/
def pyOptNat : Option Nat → String
  | some n => toString n
  | none => "None"

/-- Python string slice `s[:n]`. -/
def strTake (s : String) (n : Nat) : String :=
  ⟨s.data.take n⟩

/-- Python `len` for strings. -/
def strLen (s : String) : Nat :=
  s.data.length

/-- Python `sep.join(parts)`. -/
def joinSep (sep : String) : List String → String
  | [] => ""
  | [x] => x
  | x :: xs => x ++ sep ++ joinSep sep xs

/-- Concatenation of response fragments built in a loop. -/
def strJoin : List String → String
  | [] => ""
  | s :: t => s ++ strJoin t

/-- Python `str(labels_list)` as used in `'bug' in str(...)`. -/
def pyStrList (ls : List String) : String :=
  "[" ++ joinSep ", " (ls.map (fun s => "'" ++ s ++ "'")) ++ "]"

/-- Python `enumerate(xs, k)`. -/
def enumFrom (k : Nat) : List Issue → List (Nat × Issue)
  | [] => []
  | i :: t => (k, i) :: enumFrom (k + 1) t

/-- Label suffix of one listing line. -/
def labelSuffix (issue : Issue) : String :=
  if issue.labels.isEmpty then ""
  else " `" ++ joinSep ", " issue.labels ++ "`"

/-- One line of the initial issue listing. -/
def issueLine (p : Nat × Issue) : String :=
  toString p.1 ++ ". **#" ++ toString p.2.number ++ "** " ++
    strTake p.2.title 50 ++ labelSuffix p.2 ++ "\n"

/-- The first-contact response listing up to five issues. -/
def initialResponse (repo : String) (issues : List Issue) : String :=
  "📋 **" ++ repo ++ "** hat " ++ toString issues.length ++ " offene Issues:\n\n" ++
    strJoin ((enumFrom 1 (issues.take 5)).map issueLine) ++
    "\nWelches Issue soll ich genauer anschauen? (Nummer oder 'keins')"

/-- The `#<number>` option labels of the first five issues. -/
def numberOptions (issues : List Issue) : List String :=
  (issues.take 5).map (fun i => "#" ++ toString i.number)

/-- First-contact step: create the record, cache the fetched issues, answer
with the listing (or the empty-list closing line). -/
def handleNew (convs : Store) (env : Env) (now : Int) (cid repo : String) :
    Store × DialogResult :=
  let convs := create_conversation convs now cid ("GitHub: " ++ repo) { repo := some repo }
  let issues := env.issues
  let convs := update_context convs cid (fun c => { c with issues := some issues })
  if issues.isEmpty then
    (convs,
      { response := "✅ Keine offenen Issues in " ++ repo ++ ". Alles sauber!",
        options := [], waiting_for := none, done := true })
  else
    let response := initialResponse repo issues
    let convs := add_message convs now cid "nanobot" response
    (convs,
      { response := response, options := numberOptions issues ++ ["keins"],
        waiting_for := some "issue_selection", done := false })

/-- Body paragraph of the issue detail response. -/
def bodyBlock (details : IssueDetails) : String :=
  if truthyStr details.body then
    let b := details.body.getD ""
    let body := if 300 < strLen b then strTake b 300 ++ "..." else b
    "\n**Beschreibung:**\n" ++ body ++ "\n"
  else ""

/-- The issue detail response of the selection branch. -/
def issueDetailResponse (issue : Issue) (details : IssueDetails) : String :=
  "📌 **Issue #" ++ toString issue.number ++ "**: " ++ issue.title ++ "\n\n" ++
    "**Erstellt von:** " ++ issue.author ++ "\n" ++
    "**Erstellt am:** " ++ issue.created ++ "\n" ++
    "**Kommentare:** " ++ toString issue.comments ++ "\n" ++
    bodyBlock details ++
    "\nWas möchtest du tun?\n" ++
    "- 'kommentare' - Letzte Kommentare anzeigen\n" ++
    "- 'analysieren' - Issue analysieren lassen\n" ++
    "- 'zurück' - Andere Issues anschauen\n" ++
    "- 'fertig' - Dialog beenden"

/-- Issue-selection branch (an input number that matches a cached issue). -/
def selectIssueBranch (convs : Store) (env : Env) (now : Int) (cid repoCtx : String)
    (issue : Issue) : Store × DialogResult :=
  let details := env.details repoCtx issue.number
  let convs := update_context convs cid (fun c => { c with selected_issue := some issue.number })
  let response := issueDetailResponse issue details
  let convs := add_message convs now cid "nanobot" response
  (convs,
    { response := response,
      options := ["kommentare", "analysieren", "zurück", "fertig"],
      waiting_for := some "action_selection", done := false })

/-- One formatted comment of the comments branch. -/
def commentLine (c : CommentEntry) : String :=
  "**" ++ c.author ++ "** (" ++ c.date ++ "):\n" ++ strTake c.body 150 ++ "...\n\n"

/-- Comments branch (`"kommentar" in input` with an item selected). -/
def kommentarBranch (convs : Store) (env : Env) (now : Int) (cid repoCtx : String)
    (selected : Nat) : Store × DialogResult :=
  let comments := env.comments repoCtx selected
  let response :=
    if not comments.isEmpty then
      "💬 Letzte Kommentare zu #" ++ toString selected ++ ":\n\n" ++
        strJoin ((comments.take 3).map commentLine)
    else
      "Keine Kommentare zu #" ++ toString selected ++ "."
  let response := response ++ "\nNoch etwas? ('analysieren', 'zurück', 'fertig')"
  let convs := add_message convs now cid "nanobot" response
  (convs,
    { response := response, options := ["analysieren", "zurück", "fertig"],
      waiting_for := some "action_selection", done := false })

/-- Analysis branch (`"analy" in input` with an item selected): answer with
the analysis and raise the pending-confirmation flag. -/
def analyBranch (convs : Store) (now : Int) (cid : String) (issues : List Issue)
    (selected : Nat) : Store × DialogResult :=
  let issueOpt := issues.find? (fun i => i.number == selected)
  let typ :=
    if strContains (strLower (pyStrList ((issueOpt.map Issue.labels).getD []))) "bug"
    then "Bug" else "Feature/Enhancement"
  let response :=
    "🔍 **Analyse Issue #" ++ toString selected ++ ":**\n\n" ++
    "- Typ: " ++ typ ++ "\n" ++
    "- Alter: " ++ ((issueOpt.map Issue.created).getD "unbekannt") ++ "\n" ++
    "- Aktivität: " ++ toString ((issueOpt.map Issue.comments).getD 0) ++ " Kommentare\n" ++
    "- Priority: " ++
      (if 5 < ((issueOpt.map Issue.comments).getD 0) then "Hoch" else "Normal") ++ "\n" ++
    "\nSoll ich Claude Code bitten, einen Lösungsvorschlag zu erstellen? ('ja'/'nein')"
  let convs := add_message convs now cid "nanobot" response
  let convs := update_context convs cid (fun c => { c with waiting_for_claude := true })
  (convs,
    { response := response, options := ["ja", "nein"],
      waiting_for := some "claude_decision", done := false })

/-- The prompt sent to Claude in the confirmation branch. -/
def claudePrompt (repoCtx : String) (selected : Option Nat) (issueOpt : Option Issue) :
    String :=
  "Analysiere GitHub Issue #" ++ pyOptNat selected ++ " aus " ++ repoCtx ++ ":\n\n" ++
    "Titel: " ++ ((issueOpt.map Issue.title).getD "Unknown") ++ "\n" ++
    "Labels: " ++ joinSep ", " ((issueOpt.map Issue.labels).getD []) ++ "\n" ++
    "Erstellt: " ++ ((issueOpt.map Issue.created).getD "unknown") ++ "\n\n" ++
    "Gib einen kurzen Lösungsvorschlag (max 5 Zeilen). Antworte auf Deutsch."

/-- Confirmation branch (pending flag raised and a yes token): clear the
flag, call Claude, answer with the proposal or the failure notice. -/
def jaBranch (convs : Store) (env : Env) (now : Int) (cid repoCtx : String)
    (issues : List Issue) (selected : Option Nat) : Store × DialogResult :=
  let issueOpt :=
    match selected with
    | some n => issues.find? (fun i => i.number == n)
    | none => none
  let convs := update_context convs cid (fun c => { c with waiting_for_claude := false })
  let result := env.claude (claudePrompt repoCtx selected issueOpt)
  let response :=
    if result.1 then
      "🤖 **Claude Code Vorschlag für #" ++ pyOptNat selected ++ ":**\n\n" ++ result.2 ++
        "\n\n" ++ "Noch etwas? ('zurück' für andere Issues, 'fertig' zum Beenden)"
    else
      "❌ Claude Code konnte nicht antworten: " ++ result.2 ++ "\n\n" ++
        "Versuche es später nochmal. ('zurück', 'fertig')"
  let convs := add_message convs now cid "nanobot" response
  (convs,
    { response := response, options := ["zurück", "fertig"],
      waiting_for := some "post_claude", done := false })

/-- Declination branch (pending flag raised and a no token): clear the flag
and re-offer the actions. -/
def neinBranch (convs : Store) (now : Int) (cid : String) : Store × DialogResult :=
  let convs := update_context convs cid (fun c => { c with waiting_for_claude := false })
  let response := "👍 Ok, kein Problem. Was möchtest du tun?\n" ++
    "- 'zurück' - Andere Issues anschauen\n" ++ "- 'fertig' - Dialog beenden"
  let convs := add_message convs now cid "nanobot" response
  (convs,
    { response := response, options := ["zurück", "fertig"],
      waiting_for := some "action_selection", done := false })

/-- Back-to-list branch (`"zurück" in input`): clear the selection and the
pending flag, list the issues again. -/
def zurueckBranch (convs : Store) (now : Int) (cid : String) (issues : List Issue) :
    Store × DialogResult :=
  let convs := update_context convs cid (fun c => { c with selected_issue := none })
  let convs := update_context convs cid (fun c => { c with waiting_for_claude := false })
  let response := "📋 Zurück zur Issue-Liste:\n\n" ++
    strJoin ((enumFrom 1 (issues.take 5)).map (fun p =>
      toString p.1 ++ ". **#" ++ toString p.2.number ++ "** " ++
        strTake p.2.title 50 ++ "\n")) ++
    "\nWelches Issue? (Nummer oder 'fertig')"
  let convs := add_message convs now cid "nanobot" response
  (convs,
    { response := response, options := numberOptions issues ++ ["fertig"],
      waiting_for := some "issue_selection", done := false })

/-- The fixed clarification line of the default branch. -/
def clarifyResponse : String :=
  "Das habe ich nicht verstanden. Sag mir eine Issue-Nummer, 'zurück' oder 'fertig'."

/-- Default branch: the clarification response. -/
def defaultBranch (convs : Store) (now : Int) (cid : String) : Store × DialogResult :=
  let convs := add_message convs now cid "nanobot" clarifyResponse
  (convs,
    { response := clarifyResponse, options := ["zurück", "fertig"],
      waiting_for := some "clarification", done := false })

/-- Yes tokens of the confirmation branch. -/
def yesTokens : List String := ["ja", "yes", "ok"]

/-- No tokens of the declination branch. -/
def noTokens : List String := ["nein", "no", "nee"]

/-- The fixed result of the exit branch. -/
def exitResult : DialogResult :=
  { response := "👍 Alles klar! Bei Fragen einfach melden. DONE",
    options := [], waiting_for := none, done := true }

/-- Dialog step on an existing conversation: record the peer input, check the
exit vocabulary, then try the intents in source order on the snapshot
context. -/
def handleExisting (convs : Store) (env : Env) (now : Int) (cid input repo : String)
    (conv : Conversation) : Store × DialogResult :=
  let convs := add_message convs now cid "argus" input
  let lower := pyStrip (strLower input)
  if hasExitSignal lower then
    (end_dialog convs cid, exitResult)
  else
    let ctx := conv.context
    let issues := ctx.issues.getD []
    let repoCtx := ctx.repo.getD repo
    match (extractNumber input).bind (fun n => issues.find? (fun i => i.number == n)) with
    | some issue => selectIssueBranch convs env now cid repoCtx issue
    | none =>
      let selected := ctx.selected_issue
      if truthyNat selected && strContains lower "kommentar" then
        kommentarBranch convs env now cid repoCtx (selected.getD 0)
      else if truthyNat selected && strContains lower "analy" then
        analyBranch convs now cid issues (selected.getD 0)
      else if ctx.waiting_for_claude && yesTokens.contains lower then
        jaBranch convs env now cid repoCtx issues selected
      else if ctx.waiting_for_claude && noTokens.contains lower then
        neinBranch convs now cid
      else if strContains lower "zurück" then
        zurueckBranch convs now cid issues
      else
        defaultBranch convs now cid

/-- Embedding of `handle_github_dialog`. -/
def handle_github_dialog (convs : Store) (env : Env) (now : Int)
    (cid input repo : String) : Store × DialogResult :=
  match get_conversation convs cid with
  | none => handleNew convs env now cid repo
  | some conv => handleExisting convs env now cid input repo conv

/-- Fixture: one open issue. -/
def issue1 : Issue :=
  { number := 1, title := "Crash on startup", author := "alice",
    created := "2024-01-01", labels := ["bug"], comments := 2 }

/-- Fixture: an environment with one issue and trivial external calls. -/
def sampleEnv : Env :=
  { issues := [issue1], details := fun _ _ => {},
    comments := fun _ _ => [], claude := fun _ => (true, "ok") }

/-- Fixture: an environment with no open issues. -/
def emptyEnv : Env :=
  { issues := [], details := fun _ _ => {},
    comments := fun _ _ => [], claude := fun _ => (true, "ok") }

/-- Fixture: a session in the pending-confirmation state. -/
def pendingConv : Conversation :=
  { id := "c", topic := "GitHub: r", messages := [],
    context := { repo := some "r", issues := some [issue1],
                 selected_issue := some 1, waiting_for_claude := true },
    turn := 0, status := "active", created_at := 0 }

/-- Fixture: the store holding `pendingConv`. -/
def pendingStore : Store := [("c", pendingConv)]

/-- Fixture: a session at the issue list with nothing selected. -/
def activeConv : Conversation :=
  { id := "c", topic := "GitHub: r", messages := [],
    context := { repo := some "r", issues := some [issue1],
                 selected_issue := none, waiting_for_claude := false },
    turn := 0, status := "active", created_at := 0 }

/-- Fixture: the store holding `activeConv`. -/
def activeStore : Store := [("c", activeConv)]

end Conv

/-! Association-list lemmas. -/

section AssocLemmas

variable {α : Type}

theorem lookupBy_updateBy (l : List (String × α)) (k k' : String) (f : α → α) :
    lookupBy (updateBy l k f) k' =
      if k' = k then (lookupBy l k).map f else lookupBy l k' := by
  induction l with
  | nil => simp [lookupBy, updateBy]
  | cons p t ih =>
    by_cases h1 : p.1 = k
    · by_cases h2 : k' = k
      · subst h2
        simp [lookupBy, updateBy, h1]
      · have h3 : ¬ k = k' := fun h => h2 h.symm
        simp [lookupBy, updateBy, h1, h2, h3, ih]
    · by_cases h2 : p.1 = k'
      · have h3 : ¬ k' = k := fun h => h1 (h ▸ h2)
        simp [lookupBy, updateBy, h1, h2, h3]
      · simp [lookupBy, updateBy, h1, h2, ih]

theorem lookupBy_append (l m : List (String × α)) (k : String) :
    lookupBy (l ++ m) k =
      match lookupBy l k with
      | some v => some v
      | none => lookupBy m k := by
  induction l with
  | nil => simp [lookupBy]
  | cons p t ih =>
    by_cases h1 : p.1 = k
    · simp [lookupBy, h1]
    · simp [lookupBy, h1, ih]

theorem filter_eraseKeys (ids : List String) (l : List (String × α)) :
    ids.foldl (fun acc cid => acc.filter (fun p => not (p.1 == cid))) l =
      l.filter (fun p => not (ids.contains p.1)) := by
  induction ids generalizing l with
  | nil => simp
  | cons i ids ih =>
    simp only [List.foldl_cons]
    rw [ih, List.filter_filter]
    apply List.filter_congr
    intro p _
    simp only [List.contains_cons]
    cases h1 : p.1 == i <;> cases h2 : ids.contains p.1 <;> simp [h1, h2]

end AssocLemmas

namespace P2P

/-! Theorems about the safeguard module. -/

/-- Helper: the two turn-preserving ops never shrink `turnsOf`. -/
theorem turnsOf_applyOp_le (s : P2PState) (op : P2POp) (x : String) :
    turnsOf s x ≤ turnsOf (applyOp s op) x := by
  cases op with
  | recordTurn now cid =>
    unfold applyOp record_turn turnsOf findConv
    by_cases h : (lookupBy s.conversations cid).isSome
    · simp only [h, if_true, lookupBy_updateBy]
      by_cases hx : x = cid
      · subst hx
        cases hl : lookupBy s.conversations x <;> simp [hl]
      · simp [hx]
    · simp [h]
  | startConv now cid source =>
    unfold applyOp start_conversation turnsOf findConv
    by_cases h : (lookupBy s.conversations cid).isSome
    · simp [h]
    · simp only [h, if_false, Bool.false_eq_true, lookupBy_append]
      cases hl : lookupBy s.conversations x
      · by_cases hx : x = cid <;> simp [lookupBy, hx]
      · simp
  | endConv cid reason =>
    unfold applyOp end_conversation turnsOf findConv
    simp only [lookupBy_updateBy]
    by_cases hx : x = cid
    · subst hx
      cases hl : lookupBy s.conversations x <;> simp [hl]
    · simp [hx]

/-- Helper: monotonicity of `turnsOf` over operation sequences. -/
theorem turnsOf_applyOps_le (ops : List P2POp) :
    ∀ (s : P2PState) (x : String), turnsOf s x ≤ turnsOf (applyOps s ops) x := by
  induction ops with
  | nil => intro s x; exact Nat.le_refl _
  | cons op ops ih =>
    intro s x
    exact Nat.le_trans (turnsOf_applyOp_le s op x) (ih (applyOp s op) x)

/-- C1: on every store state and clock value, `check_safeguards` applies the
five safeguard rules in the claimed fixed order — global cooldown (strictly
under 60 s), completed record, turn budget (turns at least 3), conversation
timeout (strictly over 5 minutes), own-source — the first matching rule wins
and fixes the reason, and with no matching rule the call admits with "OK". -/
theorem check_safeguards_first_matching_rule (s : P2PState) (now : Int)
    (conversation_id source : String) :
    check_safeguards s now conversation_id source =
      evaluateSpecOrdered s now conversation_id source := by
  unfold check_safeguards evaluateSpecOrdered safeguardRules
  unfold COOLDOWN_SECONDS MAX_TURNS_PER_CONVERSATION CONVERSATION_TIMEOUT_MINUTES
  cases hl : s.last_response_at with
  | none =>
    cases hc : findConv s conversation_id with
    | none =>
      by_cases hs : source = "nanobot" <;> simp [firstMatchingRule, ownSourceCheck, hs]
    | some conv =>
      by_cases hcp : conv.completed = true <;>
        by_cases ht : 3 ≤ conv.turns <;>
          by_cases hto : (300 : Int) < now - conv.started_at <;>
            by_cases hs : source = "nanobot" <;>
              simp [firstMatchingRule, hcp, ht, hto, hs, ownSourceCheck]
  | some last =>
    by_cases hcd : now - last < 60
    · simp [firstMatchingRule, hcd]
    · cases hc : findConv s conversation_id with
      | none =>
        by_cases hs : source = "nanobot" <;>
          simp [firstMatchingRule, hcd, hs, ownSourceCheck]
      | some conv =>
        by_cases hcp : conv.completed = true <;>
          by_cases ht : 3 ≤ conv.turns <;>
            by_cases hto : (300 : Int) < now - conv.started_at <;>
              by_cases hs : source = "nanobot" <;>
                simp [firstMatchingRule, hcd, hcp, ht, hto, hs, ownSourceCheck]

/-- C7: the safeguard evaluation is a read-only predicate — it returns the
loaded store unchanged, and evaluating it twice on the same clock value with
no mutation in between yields the identical verdict. -/
theorem check_safeguards_readonly (s : P2PState) (now : Int)
    (conversation_id source : String) :
    (check_safeguardsS s now conversation_id source).1 = s ∧
    (check_safeguardsS (check_safeguardsS s now conversation_id source).1
        now conversation_id source).2 =
      (check_safeguardsS s now conversation_id source).2 := by
  have h1 : (check_safeguardsS s now conversation_id source).1 = s := by
    unfold check_safeguardsS
    cases hl : s.last_response_at with
    | none =>
      cases hc : findConv s conversation_id with
      | none => simp
      | some conv =>
        by_cases hcp : conv.completed = true <;>
          by_cases ht : MAX_TURNS_PER_CONVERSATION ≤ conv.turns <;>
            by_cases hto : CONVERSATION_TIMEOUT_MINUTES * 60 < now - conv.started_at <;>
              simp [hcp, ht, hto]
    | some last =>
      by_cases hcd : now - last < COOLDOWN_SECONDS
      · simp [hcd]
      · cases hc : findConv s conversation_id with
        | none => simp [hcd]
        | some conv =>
          by_cases hcp : conv.completed = true <;>
            by_cases ht : MAX_TURNS_PER_CONVERSATION ≤ conv.turns <;>
              by_cases hto : CONVERSATION_TIMEOUT_MINUTES * 60 < now - conv.started_at <;>
                simp [hcd, hcp, ht, hto]
  exact ⟨h1, by rw [h1]⟩

/-- C2 counterexample: on the empty store, `record_turn` for a nonexistent
conversation id does not create a record (the claim says it creates one);
it only stamps the global `last_response_at`. -/
theorem record_turn_absent_counterexample :
    findConv (record_turn ⟨[], none⟩ 5 "conv-1") "conv-1" = none ∧
    (record_turn ⟨[], none⟩ 5 "conv-1").conversations = [] ∧
    (record_turn ⟨[], none⟩ 5 "conv-1").last_response_at = some 5 := by
  refine ⟨rfl, rfl, rfl⟩

/-- C2 amended: calling `record_turn` when no record exists for the id leaves
the conversations table unchanged — no record is created and no turn counter
is incremented — while it still updates `last_response_at` globally and
persists the store. -/
theorem record_turn_absent_no_create (s : P2PState) (now : Int) (cid : String)
    (h : findConv s cid = none) :
    (record_turn s now cid).conversations = s.conversations ∧
    (record_turn s now cid).last_response_at = some now := by
  unfold record_turn
  simp [findConv] at h
  simp [findConv, h]

/-- C2 witness: the amended theorem applied on the empty store. -/
theorem record_turn_absent_no_create_witness :
    (record_turn ⟨[], none⟩ 7 "conv-2").conversations = [] ∧
    (record_turn ⟨[], none⟩ 7 "conv-2").last_response_at = some 7 :=
  record_turn_absent_no_create ⟨[], none⟩ 7 "conv-2" rfl

/-- C3 counterexample: a record marked `completed` is not inert — on
`completedState` (completed, one turn) `record_turn` still increments the
turn counter from 1 to 2, against the claim that no turn is recorded once
`completed = true`. -/
theorem record_turn_completed_counterexample :
    (findConv completedState "c").map Conversation.completed = some true ∧
    (findConv completedState "c").map Conversation.turns = some 1 ∧
    (findConv (record_turn completedState 10 "c") "c").map Conversation.turns =
      some 2 := by
  refine ⟨rfl, rfl, rfl⟩

/-- C3 amended: the turn counter is non-decreasing across every sequence of
`record_turn`, `start_conversation` and `end_conversation` calls, but a
completed record is not inert: `record_turn` increments its turn counter
exactly as for an active record. -/
theorem turns_monotone_completed_not_inert :
    (∀ (s : P2PState) (ops : List P2POp) (cid : String),
        turnsOf s cid ≤ turnsOf (applyOps s ops) cid) ∧
    (∀ (s : P2PState) (now : Int) (cid : String) (conv : Conversation),
        findConv s cid = some conv → conv.completed = true →
        (findConv (record_turn s now cid) cid).map Conversation.turns =
          some (conv.turns + 1)) := by
  constructor
  · intro s ops cid
    exact turnsOf_applyOps_le ops s cid
  · intro s now cid conv h _
    unfold record_turn findConv at *
    simp [h, lookupBy_updateBy]

/-- C3 witness: the amended theorem applied to `completedState` with a
two-operation sequence and to the completed record itself. -/
theorem turns_monotone_completed_not_inert_witness :
    turnsOf completedState "c" ≤
      turnsOf (applyOps completedState
        [P2POp.recordTurn 10 "c", P2POp.endConv "c" "completed"]) "c" ∧
    (findConv (record_turn completedState 10 "c") "c").map Conversation.turns =
      some 2 :=
  ⟨turns_monotone_completed_not_inert.1 completedState
      [P2POp.recordTurn 10 "c", P2POp.endConv "c" "completed"] "c",
    turns_monotone_completed_not_inert.2 completedState 10 "c"
      { id := "c", started_at := 0, turns := 1, last_message_at := some 0,
        completed := true, source := "argus", end_reason := none } rfl rfl⟩

/-- C9: when the store's ids are distinct (a dict guarantees this),
`cleanup_old_conversations` keeps exactly the records whose `started_at` is
not strictly earlier than `now` minus the age bound, removes all the others
unchanged in relative order, and returns exactly the number removed. -/
theorem cleanup_old_conversations_spec (s : P2PState) (now max_age_hours : Int)
    (hnodup : (s.conversations.map Prod.fst).Nodup) :
    ((cleanup_old_conversations s now max_age_hours).1.conversations =
      s.conversations.filter
        (fun p => not (decide (p.2.started_at < now - max_age_hours * 3600)))) ∧
    (∀ p, p ∈ (cleanup_old_conversations s now max_age_hours).1.conversations ↔
      p ∈ s.conversations ∧ ¬ p.2.started_at < now - max_age_hours * 3600) ∧
    ((cleanup_old_conversations s now max_age_hours).2 =
      (s.conversations.filter
        (fun p => decide (p.2.started_at < now - max_age_hours * 3600))).length) ∧
    ((cleanup_old_conversations s now max_age_hours).2 +
        (cleanup_old_conversations s now max_age_hours).1.conversations.length =
      s.conversations.length) := by
  have hchar : ∀ p ∈ s.conversations,
      (((s.conversations.filter
          (fun q => decide (q.2.started_at < now - max_age_hours * 3600))).map
            (fun q => q.1)).contains p.1) =
        decide (p.2.started_at < now - max_age_hours * 3600) := by
    intro p hp
    rw [Bool.eq_iff_iff]
    constructor
    · intro hcont
      rcases List.mem_map.mp (List.elem_iff.mp hcont) with ⟨q, hqmem, hqx⟩
      have hq := List.mem_filter.mp hqmem
      have hpq : p = q := List.inj_on_of_nodup_map hnodup hp hq.1 hqx.symm
      rw [hpq]
      exact hq.2
    · intro hexp
      have hpmem : p ∈ s.conversations.filter
          (fun q => decide (q.2.started_at < now - max_age_hours * 3600)) :=
        List.mem_filter.mpr ⟨hp, hexp⟩
      exact List.elem_iff.mpr (List.mem_map.mpr ⟨p, hpmem, rfl⟩)
  have hmain :
      (cleanup_old_conversations s now max_age_hours).1.conversations =
        s.conversations.filter
          (fun p => not (decide (p.2.started_at < now - max_age_hours * 3600))) := by
    unfold cleanup_old_conversations
    simp only [filter_eraseKeys]
    apply List.filter_congr
    intro p hp
    rw [hchar p hp]
  refine ⟨hmain, ?_, ?_, ?_⟩
  · intro p
    rw [hmain]
    simp [List.mem_filter]
  · unfold cleanup_old_conversations
    simp
  · rw [hmain]
    unfold cleanup_old_conversations
    simp only [List.length_map]
    have := (List.length_eq_length_filter_add
      (l := s.conversations)
      (f := fun p => decide (p.2.started_at < now - max_age_hours * 3600))).symm
    simpa using this

/-- C9 witness: sweeping `sweepState` at clock 0 with a 24 hour bound removes
the 25 hour old record, keeps the 23 hour old one, and returns 1. -/
theorem cleanup_old_conversations_spec_witness :
    (sweepState.conversations.map Prod.fst).Nodup ∧
    (cleanup_old_conversations sweepState 0 24).1.conversations =
      [("new", { id := "new", started_at := -82800 })] ∧
    (cleanup_old_conversations sweepState 0 24).2 = 1 := by
  refine ⟨by decide, ?_, ?_⟩
  · rw [(cleanup_old_conversations_spec sweepState 0 24 (by decide)).1]
    rfl
  · rw [(cleanup_old_conversations_spec sweepState 0 24 (by decide)).2.2.1]
    rfl

end P2P

namespace Conv

/-! Store lemmas for the dialog handler. -/

/-- Helper: `add_message` on an existing conversation, seen through lookup. -/
theorem lookup_add_message {convs : Store} {cid : String} {conv : Conversation}
    (now : Int) (role content : String) (h : lookupBy convs cid = some conv) :
    lookupBy (add_message convs now cid role content) cid =
      some { conv with
        messages := conv.messages ++
          [{ role := role, content := content, timestamp := now }],
        turn := conv.turn + 1 } := by
  unfold add_message
  simp [h, lookupBy_updateBy]

/-- Helper: `update_context` on an existing conversation, seen through lookup. -/
theorem lookup_update_context {convs : Store} {cid : String} {conv : Conversation}
    (f : Context → Context) (h : lookupBy convs cid = some conv) :
    lookupBy (update_context convs cid f) cid =
      some { conv with context := f conv.context } := by
  unfold update_context
  simp [h, lookupBy_updateBy]

/-- Helper: `end_conversation` of the dialog module, seen through lookup. -/
theorem lookup_end_dialog {convs : Store} {cid : String} {conv : Conversation}
    (h : lookupBy convs cid = some conv) :
    lookupBy (end_dialog convs cid) cid = some { conv with status := "done" } := by
  unfold end_dialog
  simp [h, lookupBy_updateBy]

/-- Helper: `create_conversation` on an absent id, seen through lookup. -/
theorem lookup_create_absent {convs : Store} {cid : String} (now : Int)
    (topic : String) (ctx : Context) (h : lookupBy convs cid = none) :
    lookupBy (create_conversation convs now cid topic ctx) cid =
      some { id := cid, topic := topic, messages := [], context := ctx,
             turn := 0, status := "active", created_at := now } := by
  unfold create_conversation setBy
  rw [h]
  simp only [Option.isSome_none, Bool.false_eq_true, if_false]
  rw [lookupBy_append, h]
  simp [lookupBy]

/-- Helper: messages after the issue-selection branch. -/
theorem msgs_selectIssueBranch {convs : Store} {cid : String} {conv : Conversation}
    (env : Env) (now : Int) (repoCtx : String) (issue : Issue)
    (h : lookupBy convs cid = some conv) :
    (lookupBy (selectIssueBranch convs env now cid repoCtx issue).1 cid).map
        Conversation.messages =
      some (conv.messages ++
        [{ role := "nanobot",
           content := (selectIssueBranch convs env now cid repoCtx issue).2.response,
           timestamp := now }]) := by
  simp only [selectIssueBranch]
  rw [lookup_add_message _ _ _ (lookup_update_context _ h)]
  simp

/-- Helper: messages after the comments branch. -/
theorem msgs_kommentarBranch {convs : Store} {cid : String} {conv : Conversation}
    (env : Env) (now : Int) (repoCtx : String) (selected : Nat)
    (h : lookupBy convs cid = some conv) :
    (lookupBy (kommentarBranch convs env now cid repoCtx selected).1 cid).map
        Conversation.messages =
      some (conv.messages ++
        [{ role := "nanobot",
           content := (kommentarBranch convs env now cid repoCtx selected).2.response,
           timestamp := now }]) := by
  simp only [kommentarBranch]
  rw [lookup_add_message _ _ _ h]
  simp

/-- Helper: messages after the analysis branch. -/
theorem msgs_analyBranch {convs : Store} {cid : String} {conv : Conversation}
    (now : Int) (issues : List Issue) (selected : Nat)
    (h : lookupBy convs cid = some conv) :
    (lookupBy (analyBranch convs now cid issues selected).1 cid).map
        Conversation.messages =
      some (conv.messages ++
        [{ role := "nanobot",
           content := (analyBranch convs now cid issues selected).2.response,
           timestamp := now }]) := by
  simp only [analyBranch]
  rw [lookup_update_context _ (lookup_add_message _ _ _ h)]
  simp

/-- Helper: messages after the confirmation branch. -/
theorem msgs_jaBranch {convs : Store} {cid : String} {conv : Conversation}
    (env : Env) (now : Int) (repoCtx : String) (issues : List Issue)
    (selected : Option Nat) (h : lookupBy convs cid = some conv) :
    (lookupBy (jaBranch convs env now cid repoCtx issues selected).1 cid).map
        Conversation.messages =
      some (conv.messages ++
        [{ role := "nanobot",
           content := (jaBranch convs env now cid repoCtx issues selected).2.response,
           timestamp := now }]) := by
  simp only [jaBranch]
  rw [lookup_add_message _ _ _ (lookup_update_context _ h)]
  simp

/-- Helper: messages after the declination branch. -/
theorem msgs_neinBranch {convs : Store} {cid : String} {conv : Conversation}
    (now : Int) (h : lookupBy convs cid = some conv) :
    (lookupBy (neinBranch convs now cid).1 cid).map Conversation.messages =
      some (conv.messages ++
        [{ role := "nanobot", content := (neinBranch convs now cid).2.response,
           timestamp := now }]) := by
  simp only [neinBranch]
  rw [lookup_add_message _ _ _ (lookup_update_context _ h)]
  simp

/-- Helper: messages after the back-to-list branch. -/
theorem msgs_zurueckBranch {convs : Store} {cid : String} {conv : Conversation}
    (now : Int) (issues : List Issue) (h : lookupBy convs cid = some conv) :
    (lookupBy (zurueckBranch convs now cid issues).1 cid).map Conversation.messages =
      some (conv.messages ++
        [{ role := "nanobot", content := (zurueckBranch convs now cid issues).2.response,
           timestamp := now }]) := by
  simp only [zurueckBranch]
  rw [lookup_add_message _ _ _ (lookup_update_context _ (lookup_update_context _ h))]
  simp

/-- Helper: messages after the default clarification branch. -/
theorem msgs_defaultBranch {convs : Store} {cid : String} {conv : Conversation}
    (now : Int) (h : lookupBy convs cid = some conv) :
    (lookupBy (defaultBranch convs now cid).1 cid).map Conversation.messages =
      some (conv.messages ++
        [{ role := "nanobot", content := (defaultBranch convs now cid).2.response,
           timestamp := now }]) := by
  simp only [defaultBranch]
  rw [lookup_add_message _ _ _ h]
  simp

/-- C10: the first-contact step never reads the peer's input — on a store
with no session for the id, any two inputs produce the identical new store
and the identical response, options and done flag. -/
theorem first_contact_input_independent (convs : Store) (env : Env) (now : Int)
    (cid repo : String) (input₁ input₂ : String)
    (h : get_conversation convs cid = none) :
    handle_github_dialog convs env now cid input₁ repo =
      handle_github_dialog convs env now cid input₂ repo := by
  unfold handle_github_dialog
  rw [h]

/-- C10 witness: on the empty store an exit token and an unrelated greeting
give the identical first-contact outcome. -/
theorem first_contact_input_independent_witness :
    get_conversation ([] : Store) "c" = none ∧
    handle_github_dialog [] sampleEnv 0 "c" "fertig" "r" =
      handle_github_dialog [] sampleEnv 0 "c" "hallo" "r" :=
  ⟨rfl, first_contact_input_independent [] sampleEnv 0 "c" "r" "fertig" "hallo" rfl⟩

/-- C4 counterexample: at the first-contact (NEW) step the termination token
"fertig" does not end the dialog — with one open issue the handler answers
the issue listing with `done = false` and the freshly created session stays
active, against the claim that termination is checked at every state
including the initial step. -/
theorem first_contact_exit_token_counterexample :
    (handle_github_dialog [] sampleEnv 0 "c" "fertig" "r").2.done = false ∧
    (get_conversation (handle_github_dialog [] sampleEnv 0 "c" "fertig" "r").1 "c").map
      Conversation.status = some "active" := by
  exact ⟨rfl, rfl⟩

/-- C4 amended: whenever a session already exists for the id (whatever its
state), an input holding a termination token ends the dialog before any other
intent — the result is the fixed exit answer with `done = true` and the
session status becomes "done" — while at the first-contact step the input is
not examined at all, so the termination vocabulary does not apply there. -/
theorem exit_signal_terminates_existing (convs : Store) (env : Env) (now : Int)
    (cid input repo : String) (conv : Conversation)
    (h : get_conversation convs cid = some conv)
    (hexit : hasExitSignal (pyStrip (strLower input)) = true) :
    (handle_github_dialog convs env now cid input repo).2 = exitResult ∧
    (handle_github_dialog convs env now cid input repo).2.done = true ∧
    (get_conversation (handle_github_dialog convs env now cid input repo).1 cid).map
      Conversation.status = some "done" := by
  unfold handle_github_dialog at *
  unfold get_conversation at h ⊢
  rw [h]
  unfold handleExisting
  simp only [hexit, if_true]
  refine ⟨by trivial, by trivial, ?_⟩
  rw [lookup_end_dialog (lookup_add_message now "argus" input h)]
  rfl

/-- C6 counterexample: the termination transition appends exactly one message
(the peer input), not two — an existing session with no messages receiving
"fertig" ends with a single stored message, against the claim that every
non-NEW transition appends two. -/
theorem termination_single_message_counterexample :
    (handle_github_dialog activeStore sampleEnv 0 "c" "fertig" "r").2.done = true ∧
    (get_conversation
      (handle_github_dialog activeStore sampleEnv 0 "c" "fertig" "r").1 "c").map
        (fun c => c.messages.length) = some 1 := by
  exact ⟨rfl, rfl⟩

/-- C6 amended: message bookkeeping per transition — the first-contact
transition appends one message (only the local response) when the fetched
list is nonempty and none at all when it is empty; a transition on an
existing session appends only the peer input when a termination token fires,
and exactly two messages (peer input first, local response second) on every
other branch. -/
theorem transition_message_counts (convs : Store) (env : Env) (now : Int)
    (cid input repo : String) :
    (get_conversation convs cid = none → env.issues = [] →
      (get_conversation (handle_github_dialog convs env now cid input repo).1 cid).map
        Conversation.messages = some []) ∧
    (get_conversation convs cid = none → env.issues ≠ [] →
      (get_conversation (handle_github_dialog convs env now cid input repo).1 cid).map
        Conversation.messages =
        some [{ role := "nanobot",
                content := (handle_github_dialog convs env now cid input repo).2.response,
                timestamp := now }]) ∧
    (∀ conv, get_conversation convs cid = some conv →
      hasExitSignal (pyStrip (strLower input)) = true →
      (get_conversation (handle_github_dialog convs env now cid input repo).1 cid).map
        Conversation.messages =
        some (conv.messages ++ [{ role := "argus", content := input, timestamp := now }])) ∧
    (∀ conv, get_conversation convs cid = some conv →
      hasExitSignal (pyStrip (strLower input)) = false →
      (get_conversation (handle_github_dialog convs env now cid input repo).1 cid).map
        Conversation.messages =
        some (conv.messages ++
          [{ role := "argus", content := input, timestamp := now },
           { role := "nanobot",
             content := (handle_github_dialog convs env now cid input repo).2.response,
             timestamp := now }])) := by
  refine ⟨?_, ?_, ?_, ?_⟩
  · intro h hissues
    unfold handle_github_dialog get_conversation at *
    rw [h]
    unfold handleNew
    simp only [hissues, List.isEmpty_nil, if_true]
    rw [lookup_update_context _
      (lookup_create_absent now ("GitHub: " ++ repo) { repo := some repo } h)]
    rfl
  · intro h hne
    rcases henv : env.issues with _ | ⟨i0, irest⟩
    · exact absurd henv hne
    · unfold handle_github_dialog get_conversation at *
      rw [h]
      unfold handleNew
      simp only [henv, List.isEmpty_cons, Bool.false_eq_true, if_false]
      rw [lookup_add_message _ _ _ (lookup_update_context _
        (lookup_create_absent now ("GitHub: " ++ repo) { repo := some repo } h))]
      simp
  · intro conv h hexit
    unfold handle_github_dialog get_conversation at *
    rw [h]
    unfold handleExisting
    simp only [hexit, if_true]
    rw [lookup_end_dialog (lookup_add_message now "argus" input h)]
    rfl
  · intro conv h hexit
    unfold handle_github_dialog get_conversation at *
    rw [h]
    unfold handleExisting
    simp only [hexit, Bool.false_eq_true, if_false]
    have h1 := lookup_add_message now "argus" input h
    cases hfound : (extractNumber input).bind
        (fun n => (conv.context.issues.getD []).find? (fun i => i.number == n)) with
    | some issue =>
      simp only [hfound]
      rw [msgs_selectIssueBranch _ _ _ _ h1]
      simp
    | none =>
      simp only [hfound]
      cases hb1 : (truthyNat conv.context.selected_issue &&
          strContains (pyStrip (strLower input)) "kommentar") with
      | true =>
        simp only [hb1, if_true]
        rw [msgs_kommentarBranch _ _ _ _ h1]
        simp
      | false =>
        simp only [hb1, Bool.false_eq_true, if_false]
        cases hb2 : (truthyNat conv.context.selected_issue &&
            strContains (pyStrip (strLower input)) "analy") with
        | true =>
          simp only [hb2, if_true]
          rw [msgs_analyBranch _ _ _ h1]
          simp
        | false =>
          simp only [hb2, Bool.false_eq_true, if_false]
          cases hb3 : (conv.context.waiting_for_claude &&
              yesTokens.contains (pyStrip (strLower input))) with
          | true =>
            simp only [hb3, if_true]
            rw [msgs_jaBranch _ _ _ _ _ h1]
            simp
          | false =>
            simp only [hb3, Bool.false_eq_true, if_false]
            cases hb4 : (conv.context.waiting_for_claude &&
                noTokens.contains (pyStrip (strLower input))) with
            | true =>
              simp only [hb4, if_true]
              rw [msgs_neinBranch _ h1]
              simp
            | false =>
              simp only [hb4, Bool.false_eq_true, if_false]
              cases hb5 : strContains (pyStrip (strLower input)) "zurück" with
              | true =>
                simp only [hb5, if_true]
                rw [msgs_zurueckBranch _ _ h1]
                simp
              | false =>
                simp only [hb5, Bool.false_eq_true, if_false]
                rw [msgs_defaultBranch _ h1]
                simp

/-- C6 witness: the amended theorem applied on all four shapes — empty-list
first contact, nonempty first contact, termination, and an ordinary
clarification turn. -/
theorem transition_message_counts_witness :
    ((get_conversation (handle_github_dialog [] emptyEnv 0 "c" "x" "r").1 "c").map
      Conversation.messages = some []) ∧
    ((get_conversation (handle_github_dialog [] sampleEnv 0 "c" "x" "r").1 "c").map
      Conversation.messages =
      some [{ role := "nanobot",
              content := (handle_github_dialog [] sampleEnv 0 "c" "x" "r").2.response,
              timestamp := 0 }]) ∧
    ((get_conversation
        (handle_github_dialog activeStore sampleEnv 0 "c" "fertig" "r").1 "c").map
      Conversation.messages =
      some [{ role := "argus", content := "fertig", timestamp := 0 }]) ∧
    ((get_conversation
        (handle_github_dialog activeStore sampleEnv 0 "c" "hallo" "r").1 "c").map
      Conversation.messages =
      some [{ role := "argus", content := "hallo", timestamp := 0 },
            { role := "nanobot",
              content := (handle_github_dialog activeStore sampleEnv 0 "c" "hallo" "r").2.response,
              timestamp := 0 }]) :=
  ⟨(transition_message_counts [] emptyEnv 0 "c" "x" "r").1 rfl rfl,
   (transition_message_counts [] sampleEnv 0 "c" "x" "r").2.1 rfl (by decide),
   (transition_message_counts activeStore sampleEnv 0 "c" "fertig" "r").2.2.1
     activeConv rfl rfl,
   (transition_message_counts activeStore sampleEnv 0 "c" "hallo" "r").2.2.2
     activeConv rfl rfl⟩

/-- Helper: on an existing session, an input that triggers no recognized
intent reaches the default branch — the result is the fixed clarification and
the record only gains the two messages and two turn ticks. -/
theorem fallthrough_default (convs : Store) (env : Env) (now : Int)
    (cid input repo : String) (conv : Conversation)
    (h : get_conversation convs cid = some conv)
    (hexit : hasExitSignal (pyStrip (strLower input)) = false)
    (hfound : (extractNumber input).bind
      (fun n => (conv.context.issues.getD []).find? (fun i => i.number == n)) = none)
    (hkom : (truthyNat conv.context.selected_issue &&
      strContains (pyStrip (strLower input)) "kommentar") = false)
    (hana : (truthyNat conv.context.selected_issue &&
      strContains (pyStrip (strLower input)) "analy") = false)
    (hja : (conv.context.waiting_for_claude &&
      yesTokens.contains (pyStrip (strLower input))) = false)
    (hnein : (conv.context.waiting_for_claude &&
      noTokens.contains (pyStrip (strLower input))) = false)
    (hzur : strContains (pyStrip (strLower input)) "zurück" = false) :
    (handle_github_dialog convs env now cid input repo).2 =
      { response := clarifyResponse, options := ["zurück", "fertig"],
        waiting_for := some "clarification", done := false } ∧
    get_conversation (handle_github_dialog convs env now cid input repo).1 cid =
      some { conv with
        messages := conv.messages ++
          [{ role := "argus", content := input, timestamp := now },
           { role := "nanobot", content := clarifyResponse, timestamp := now }],
        turn := conv.turn + 2 } := by
  unfold handle_github_dialog get_conversation at *
  rw [h]
  unfold handleExisting
  simp only [hexit, Bool.false_eq_true, if_false, hfound, hkom, hana, hja, hnein, hzur]
  have h1 := lookup_add_message now "argus" input h
  constructor
  · rfl
  · simp only [defaultBranch]
    rw [lookup_add_message now "nanobot" clarifyResponse h1]
    simp

/-- C5 counterexample: in the pending-confirmation state (after an analysis)
the input "#1" — a known issue number, not a yes/no token — does not re-prompt
for the confirmation: the dialog advances to the issue view with the action
options, against the claim that only yes/no tokens are honored and all else
re-prompts. -/
theorem pending_confirmation_number_counterexample :
    pendingConv.context.waiting_for_claude = true ∧
    (handle_github_dialog pendingStore sampleEnv 0 "c" "#1" "r").2.waiting_for =
      some "action_selection" ∧
    (handle_github_dialog pendingStore sampleEnv 0 "c" "#1" "r").2.options =
      ["kommentare", "analysieren", "zurück", "fertig"] ∧
    (handle_github_dialog pendingStore sampleEnv 0 "c" "#1" "r").2.options ≠
      ["ja", "nein"] := by
  exact ⟨rfl, rfl, rfl, by decide⟩

/-- C5 amended: in the pending-confirmation state the exact yes/no tokens are
honored, but earlier intents still fire first (termination tokens, a cached
issue number, comment/analysis keywords with a selection, "zurück"); an input
matching none of these falls through to the generic clarification — not to a
repeat of the confirmation prompt — and the pending flag stays set rather
than being consumed. -/
theorem pending_confirmation_fallthrough (convs : Store) (env : Env) (now : Int)
    (cid input repo : String) (conv : Conversation)
    (h : get_conversation convs cid = some conv)
    (hw : conv.context.waiting_for_claude = true)
    (hexit : hasExitSignal (pyStrip (strLower input)) = false)
    (hfound : (extractNumber input).bind
      (fun n => (conv.context.issues.getD []).find? (fun i => i.number == n)) = none)
    (hkom : (truthyNat conv.context.selected_issue &&
      strContains (pyStrip (strLower input)) "kommentar") = false)
    (hana : (truthyNat conv.context.selected_issue &&
      strContains (pyStrip (strLower input)) "analy") = false)
    (hja : yesTokens.contains (pyStrip (strLower input)) = false)
    (hnein : noTokens.contains (pyStrip (strLower input)) = false)
    (hzur : strContains (pyStrip (strLower input)) "zurück" = false) :
    (handle_github_dialog convs env now cid input repo).2 =
      { response := clarifyResponse, options := ["zurück", "fertig"],
        waiting_for := some "clarification", done := false } ∧
    (get_conversation (handle_github_dialog convs env now cid input repo).1 cid).map
      (fun c => c.context.waiting_for_claude) = some true := by
  have hf := fallthrough_default convs env now cid input repo conv h hexit hfound
    hkom hana (by rw [hja]; simp) (by rw [hnein]; simp) hzur
  refine ⟨hf.1, ?_⟩
  rw [hf.2]
  simp [hw]

/-- C5 witness: the amended theorem applied to the pending session and the
unrelated input "hmm". -/
theorem pending_confirmation_fallthrough_witness :
    (handle_github_dialog pendingStore sampleEnv 0 "c" "hmm" "r").2 =
      { response := clarifyResponse, options := ["zurück", "fertig"],
        waiting_for := some "clarification", done := false } ∧
    (get_conversation
        (handle_github_dialog pendingStore sampleEnv 0 "c" "hmm" "r").1 "c").map
      (fun c => c.context.waiting_for_claude) = some true :=
  pending_confirmation_fallthrough pendingStore sampleEnv 0 "c" "hmm" "r"
    pendingConv rfl rfl rfl rfl rfl rfl rfl rfl rfl

/-- C8 counterexample: "42 fertig" holds the integer 42, which matches no
cached item, yet the dialog does not fall through to the clarification with
`done = false` — the termination token fires, the session status changes to
done and `done = true`, against the claim that every input holding an
unmatched integer leaves the state unchanged and clarifies. -/
theorem unmatched_number_exit_counterexample :
    activeConv.context.issues = some [issue1] ∧
    extractNumber "42 fertig" = some 42 ∧
    [issue1].find? (fun i => i.number == 42) = none ∧
    (handle_github_dialog activeStore sampleEnv 0 "c" "42 fertig" "r").2.done = true ∧
    (get_conversation
        (handle_github_dialog activeStore sampleEnv 0 "c" "42 fertig" "r").1 "c").map
      Conversation.status = some "done" := by
  exact ⟨rfl, rfl, rfl, rfl, rfl⟩

/-- C8 amended: with a cached item list, an input holding an integer that
matches no cached item and containing no other recognized token (termination,
comment/analysis, yes/no, back) falls through to the fixed clarification with
`done = false`; no selected item is stored, no context value is modified and
the status is unchanged — only the two messages of the transition are
appended. -/
theorem unmatched_number_clarifies (convs : Store) (env : Env) (now : Int)
    (cid input repo : String) (conv : Conversation) (cached : List Issue) (n : Nat)
    (h : get_conversation convs cid = some conv)
    (hcache : conv.context.issues = some cached)
    (hnum : extractNumber input = some n)
    (hnomatch : cached.find? (fun i => i.number == n) = none)
    (hexit : hasExitSignal (pyStrip (strLower input)) = false)
    (hkom : (truthyNat conv.context.selected_issue &&
      strContains (pyStrip (strLower input)) "kommentar") = false)
    (hana : (truthyNat conv.context.selected_issue &&
      strContains (pyStrip (strLower input)) "analy") = false)
    (hja : (conv.context.waiting_for_claude &&
      yesTokens.contains (pyStrip (strLower input))) = false)
    (hnein : (conv.context.waiting_for_claude &&
      noTokens.contains (pyStrip (strLower input))) = false)
    (hzur : strContains (pyStrip (strLower input)) "zurück" = false) :
    (handle_github_dialog convs env now cid input repo).2 =
      { response := clarifyResponse, options := ["zurück", "fertig"],
        waiting_for := some "clarification", done := false } ∧
    (get_conversation (handle_github_dialog convs env now cid input repo).1 cid).map
      (fun c => c.context) = some conv.context ∧
    (get_conversation (handle_github_dialog convs env now cid input repo).1 cid).map
      Conversation.status = some conv.status := by
  have hfound : (extractNumber input).bind
      (fun m => (conv.context.issues.getD []).find? (fun i => i.number == m)) = none := by
    rw [hnum, hcache]
    simpa using hnomatch
  have hf := fallthrough_default convs env now cid input repo conv h hexit hfound
    hkom hana hja hnein hzur
  refine ⟨hf.1, ?_, ?_⟩ <;> rw [hf.2] <;> rfl

/-- C8 witness: the amended theorem applied to the active session (cached
list holding only issue 1) and the bare input "42". -/
theorem unmatched_number_clarifies_witness :
    (handle_github_dialog activeStore sampleEnv 0 "c" "42" "r").2 =
      { response := clarifyResponse, options := ["zurück", "fertig"],
        waiting_for := some "clarification", done := false } ∧
    (get_conversation
        (handle_github_dialog activeStore sampleEnv 0 "c" "42" "r").1 "c").map
      (fun c => c.context) = some activeConv.context ∧
    (get_conversation
        (handle_github_dialog activeStore sampleEnv 0 "c" "42" "r").1 "c").map
      Conversation.status = some "active" :=
  unmatched_number_clarifies activeStore sampleEnv 0 "c" "42" "r" activeConv
    [issue1] 42 rfl rfl rfl rfl rfl rfl rfl rfl rfl rfl

/-- C4 witness: the amended theorem applied to an active session and the
input "fertig". -/
theorem exit_signal_terminates_existing_witness :
    get_conversation activeStore "c" = some activeConv ∧
    hasExitSignal (pyStrip (strLower "fertig")) = true ∧
    (handle_github_dialog activeStore sampleEnv 0 "c" "fertig" "r").2 = exitResult ∧
    (get_conversation
      (handle_github_dialog activeStore sampleEnv 0 "c" "fertig" "r").1 "c").map
        Conversation.status = some "done" :=
  ⟨rfl, rfl,
    (exit_signal_terminates_existing activeStore sampleEnv 0 "c" "fertig" "r"
      activeConv rfl rfl).1,
    (exit_signal_terminates_existing activeStore sampleEnv 0 "c" "fertig" "r"
      activeConv rfl rfl).2.2⟩

end Conv

end Nanobot
